import Mathlib

/-
Verification development for the routine execution engine of the
auto-maple repository: routine components (Point, Label, Jump, Setting),
the cooldown tracker, the skill-rotation timing bounds, the rune-solving
retry state machine, and the notifier alert path.

Python floats and timestamps are modelled as rationals (ℚ); Python's
`%` on integers is modelled with an explicit division-by-zero case
(`x % 0` raises ZeroDivisionError in Python, so the embedding returns
`none` there).  Fallible Python code (constructors that raise) returns
`Except`/`Option`.
-/

namespace AutoMaple

/-- Modelled from the spec: `settings.validate_nonnegative_int` lives in
`src/common/settings.py`, which is not part of the given sources.  The spec
describes `repeat_period ≥ 0` as "integer; 0 means execute every visit", so
the validator accepts every nonnegative integer and rejects negative ones. -/
def validate_nonnegative_int (n : Int) : Except String Int :=
  if 0 ≤ n then Except.ok n else Except.error "not a valid nonnegative integer"

/-- Modelled from the spec: `settings.validate_boolean` lives in the missing
`src/common/settings.py`; routine scripts store booleans as the strings
"True"/"False" (the constructors' defaults are the string 'False'), so the
validator maps those two strings to booleans and rejects anything else. -/
def validate_boolean (s : String) : Except String Bool :=
  if s = "True" then Except.ok true
  else if s = "False" then Except.ok false
  else Except.error "not a valid boolean"

/-- Python's integer `a % b` for nonnegative operands: raises
ZeroDivisionError when `b = 0`, modelled as `none`. -/
def pyMod (a b : Nat) : Option Nat :=
  if b = 0 then none else some (a % b)

/-- Embeds `Point._increment_counter` / `Jump._increment_counter`
(src/routine/components.py lines 94-98 and 160-162):
`self.counter = (self.counter + 1) % self.frequency`. -/
def incrementCounter (counter frequency : Nat) : Option Nat :=
  pyMod (counter + 1) frequency

/-- What the claim says the increment computes: wrap modulo
`max (frequency, 1)`, which never divides by zero. -/
def incrementCounterClaim (counter frequency : Nat) : Nat :=
  (counter + 1) % (max frequency 1)

/-- Values stored in a Component's `kwargs` mapping: the raw constructor
arguments.  `Component.PRIMITIVES = \x7bint, str, bool, float\x7d`; any other
value (a list, a tuple, an object) is `nonPrimitive`.  Python float
rendering is modelled on rationals; no claim depends on a float's textual
form. -/
inductive PrimValue : Type
  | pInt : Int → PrimValue
  | pStr : String → PrimValue
  | pBool : Bool → PrimValue
  | pFloat : Rat → PrimValue
  | nonPrimitive : PrimValue
deriving DecidableEq, Repr

/-- The membership test `type(self.kwargs[key]) in Component.PRIMITIVES`. -/
def PrimValue.isPrimitive : PrimValue → Bool
  | .nonPrimitive => false
  | _ => true

/-- Python's f-string rendering `f'\x7bvalue\x7d'` per primitive type: ints in
decimal, strings verbatim, booleans as `True`/`False`; floats abstracted to
the rational's decimal-style form (unused by any claim). -/
def PrimValue.render : PrimValue → String
  | .pInt n => toString n
  | .pStr s => s
  | .pBool true => "True"
  | .pBool false => "False"
  | .pFloat q => if q.den = 1 then toString q.num ++ ".0" else toString q
  | .nonPrimitive => ""

/-- The loop guard of `Component.encode`:
`key != 'id' and type(self.kwargs[key]) in Component.PRIMITIVES`. -/
def encodeKeep (kv : String × PrimValue) : Bool :=
  kv.1 ≠ "id" && kv.2.isPrimitive

/-- One iteration of the `for key, value in self.kwargs.items()` loop of
`Component.encode` (src/routine/components.py lines 52-59): append
`f'\x7bkey\x7d=\x7bvalue\x7d'` to `arr` when the key is not `'id'` and the value's type
is primitive. -/
def encodeStep (arr : List String) (kv : String × PrimValue) : List String :=
  if encodeKeep kv then arr ++ [kv.1 ++ "=" ++ kv.2.render]
  else arr

/-- Embeds `Component.encode`: start `arr = [self.id]`, run the kwargs loop,
then `', '.join(arr)`. -/
def componentEncode (id : String) (kwargs : List (String × PrimValue)) : String :=
  String.intercalate ", " (kwargs.foldl encodeStep [id])

/-- Embeds `Label.encode` (src/routine/components.py lines 124-125):
a newline prefixed to the generic encoding, `'\n' + super().encode()`. -/
def labelEncode (kwargs : List (String × PrimValue)) : String :=
  "\n" ++ componentEncode "@" kwargs

/-- Modelled from the spec's words for the refinement comparison: the spec
claims each element renders as `<symbol> <key=value>, ...`, i.e. the symbol
separated from the first pair by a space, the pairs joined by commas. -/
def specFormatEncode (id : String) (kwargs : List (String × PrimValue)) : String :=
  let pairs := (kwargs.filter encodeKeep).map (fun kv => kv.1 ++ "=" ++ kv.2.render)
  if pairs.isEmpty then id else id ++ " " ++ String.intercalate ", " pairs

/-- State of a `Point` routine component (src/routine/components.py
lines 62-107): raw kwargs plus the validated fields set by `__init__`. -/
structure Point : Type where
  kwargs : List (String × PrimValue)
  x : Rat
  y : Rat
  frequency : Nat
  counter : Nat
  adjust : Bool
  commands : List String
deriving DecidableEq, Repr

/-- State of a `Label` component (src/routine/components.py lines 110-137).
`links` is the back-reference set of bound Jumps, kept abstract as a count
of bound jumps; `index` is assigned at bind time. -/
structure Label : Type where
  kwargs : List (String × PrimValue)
  label : String
  index : Option Nat
deriving DecidableEq, Repr

/-- State of a `Jump` component (src/routine/components.py lines 140-182).
`link` is `None` before binding or when the target label does not exist;
once bound it gives access to the Label's `index`, modelled as the bound
Label's state. -/
structure Jump : Type where
  kwargs : List (String × PrimValue)
  label : String
  frequency : Nat
  counter : Nat
  link : Option Label
deriving DecidableEq, Repr

/-- State of a `Setting` component (src/routine/components.py
lines 185-201): a validated key into the settings registry and the
validated value. -/
structure Setting : Type where
  kwargs : List (String × PrimValue)
  key : String
  value : Rat
deriving DecidableEq, Repr

/-- A routine element, one of the four `SYMBOLS` variants. -/
inductive Element : Type
  | point : Point → Element
  | label : Label → Element
  | jump : Jump → Element
  | setting : Setting → Element
deriving DecidableEq, Repr

/-- Externally visible side effects emitted while executing an element:
navigation requests, command execution, live-setting writes, and printed
diagnostics. -/
inductive Effect : Type
  | moveTo : Rat → Rat → Effect
  | adjustTo : Rat → Rat → Effect
  | runCommand : String → Effect
  | runSkillRotation : Effect
  | setSetting : String → Rat → Effect
  | diagnostic : String → Effect
deriving DecidableEq, Repr

/-- The decision loop's execution context: the routine cursor
(`config.routine.index`), the `settings.skill_rotation_mode` flag, and the
accumulated side effects of the step. -/
structure ExecCtx : Type where
  index : Nat
  skillRotationMode : Bool
  effects : List Effect
deriving DecidableEq, Repr

/-- Embeds `Point.main` (src/routine/components.py lines 78-92): when the
counter is 0, issue the move request, optionally the adjust request, then
either a skill rotation or the attached commands; in every case run
`_increment_counter`, whose `% frequency` fails when `frequency = 0`. -/
def pointMain (p : Point) (ctx : ExecCtx) : Option (Point × ExecCtx) :=
  let acts : List Effect :=
    if p.counter = 0 then
      [Effect.moveTo p.x p.y]
        ++ (if p.adjust then [Effect.adjustTo p.x p.y] else [])
        ++ (if ctx.skillRotationMode then [Effect.runSkillRotation]
            else p.commands.map Effect.runCommand)
    else []
  match incrementCounter p.counter p.frequency with
  | none => none
  | some c =>
      some ({ p with counter := c }, { ctx with effects := ctx.effects ++ acts })

/-- Embeds `Jump.main` (src/routine/components.py lines 152-158): an
unresolved jump only prints a diagnostic; a resolved one moves the cursor
to the label's index when the counter is 0, then increments the counter. -/
def jumpMain (j : Jump) (ctx : ExecCtx) : Option (Jump × ExecCtx) :=
  match j.link with
  | none =>
      some (j, { ctx with effects :=
        ctx.effects ++ [Effect.diagnostic ("Label " ++ j.label ++ " does not exist")] })
  | some lbl =>
      let ctx1 :=
        if j.counter = 0 then
          { ctx with index := lbl.index.getD ctx.index }
        else ctx
      match incrementCounter j.counter j.frequency with
      | none => none
      | some c => some ({ j with counter := c }, ctx1)

/-- Embeds `Setting.main` (src/routine/components.py lines 197-198):
`setattr(settings, self.key, self.value)` on every visit. -/
def settingMain (s : Setting) (ctx : ExecCtx) : Option (Setting × ExecCtx) :=
  some (s, { ctx with effects := ctx.effects ++ [Effect.setSetting s.key s.value] })

/-- Dispatches `main` per element variant; `Label.main` is the inherited
no-op `Component.main`. -/
def elementMain (e : Element) (ctx : ExecCtx) : Option (Element × ExecCtx) :=
  match e with
  | .point p => (pointMain p ctx).map (fun r => (Element.point r.1, r.2))
  | .label l => some (Element.label l, ctx)
  | .jump j => (jumpMain j ctx).map (fun r => (Element.jump r.1, r.2))
  | .setting s => (settingMain s ctx).map (fun r => (Element.setting r.1, r.2))

/-- Modelled from the spec: the decorator `utils.run_if_enabled` is defined
in `src/common/decorators.py`, which is not part of the given sources; the
spec says execution is "gated by the global `enabled` flag (if disabled,
neither the action nor the counter increment occurs)".  This embeds
`Component.execute` (src/routine/components.py lines 31-33): run `main`
only when `config.enabled` holds, otherwise change nothing. -/
def elementExecute (enabled : Bool) (e : Element) (ctx : ExecCtx) :
    Option (Element × ExecCtx) :=
  if enabled then elementMain e ctx else some (e, ctx)

/-- The decision loop's state for one iteration of `Bot._main`
(src/modules/bot.py lines 75-99): the routine's elements, the cursor, the
global enabled flag and the context flags. -/
structure BotState : Type where
  enabled : Bool
  elements : List Element
  index : Nat
  skillRotationMode : Bool
  effects : List Effect
deriving DecidableEq, Repr

/-- Modelled from the spec: `Routine.step` lives in `src/routine/routine.py`,
which is not part of the given sources; the spec says `step()` advances
`cursor.index = (cursor.index + 1) mod length`. -/
def routineStepIndex (index length : Nat) : Nat :=
  (index + 1) % length

/-- One iteration of `Bot._main`'s loop body (src/modules/bot.py
lines 75-99): when enabled and the routine is nonempty, execute the element
under the cursor and advance the cursor; otherwise sleep, changing
nothing. -/
def botStep (s : BotState) : Option BotState :=
  if s.enabled ∧ s.elements ≠ [] then
    match s.elements.get? s.index with
    | none => none
    | some e =>
        let ctx : ExecCtx :=
          { index := s.index, skillRotationMode := s.skillRotationMode,
            effects := s.effects }
        match elementExecute s.enabled e ctx with
        | none => none
        | some (e', ctx') =>
            some { s with
              elements := s.elements.set s.index e',
              index := routineStepIndex ctx'.index s.elements.length,
              effects := ctx'.effects }
  else some s

/-- State of a `CooldownTracker` (src/routine/cooldown_tracker.py): the
cooldown table as an association list keyed by skill id, and the last-used
timestamps as a total map (the Python dict holds exactly the cooldown
keys, each initialized before any read, so a total function is an
equivalent model); timestamps are rational seconds. -/
structure CooldownTracker : Type where
  cooldowns : List (String × Rat)
  last_used : String → Rat

/-- Embeds `CooldownTracker.__init__` (src/routine/cooldown_tracker.py
lines 15-17): copy the table and initialize every `last_used` entry
to 0.0. -/
def cooldownInit (cooldowns : List (String × Rat)) : CooldownTracker :=
  { cooldowns := cooldowns, last_used := fun _ => 0 }

/-- Embeds `CooldownTracker.record_used` (src/routine/cooldown_tracker.py
lines 19-20) at clock reading `now`: `self.last_used[key] = time.time()`. -/
def recordUsed (t : CooldownTracker) (key : String) (now : Rat) :
    CooldownTracker :=
  { t with last_used := fun k => if k = key then now else t.last_used k }

/-- Embeds `CooldownTracker.get_available` (src/routine/cooldown_tracker.py
lines 22-29) at clock reading `now`: the keys whose cooldown is `<= 0` or
whose last use is at least the cooldown ago. -/
def getAvailable (t : CooldownTracker) (now : Rat) : List String :=
  (t.cooldowns.filter (fun kv =>
    decide (kv.2 ≤ 0 ∨ now - t.last_used kv.1 ≥ kv.2))).map (fun kv => kv.1)

/-- State touched by `Bot._solve_rune` (src/modules/bot.py lines 101-159):
the persistent global `attempts` counter, the puzzle-active flag
`rune_active`, and two event flags for this run: whether the cash-shop
recovery sequence ran and whether the process was killed. -/
structure RuneState : Type where
  attempts : Nat
  runeActive : Bool
  cashShopRecovery : Bool
  aborted : Bool
deriving DecidableEq, Repr

/-- Embeds the failure bookkeeping at the end of `Bot._solve_rune`
(src/modules/bot.py lines 144-159), given whether one of the solve rounds
succeeded: a success right-clicks the buff, clears `rune_active` and resets
`attempts` to 0; then `attempts += 1` runs unconditionally; every
`attempts % 3 == 0` triggers the cash-shop recovery; `attempts > 9`
force-clears `rune_active`; `attempts > 20` kills the game process and the
agent's own process. -/
def solveRune (solved : Bool) (s : RuneState) : RuneState :=
  let s1 := if solved then { s with runeActive := false, attempts := 0 } else s
  let a := s1.attempts + 1
  let active2 := if a > 9 then false else s1.runeActive
  { attempts := a,
    runeActive := active2,
    cashShopRecovery := a % 3 = 0,
    aborted := a > 20 }

/-- The flags touched by `Notifier._alert` (src/modules/notifier.py
lines 182-197): the global pause flag `config.enabled`, the key listener's
flag `config.listener.enabled`, and whether the alert sound is looping. -/
structure AlertState : Type where
  enabled : Bool
  listenerEnabled : Bool
  mixerPlaying : Bool
deriving DecidableEq, Repr

/-- The entry of `Notifier._alert`: `config.enabled = False`,
`config.listener.enabled = False`, load and loop the alert sound. -/
def alertStart (s : AlertState) : AlertState :=
  { s with enabled := false, listenerEnabled := false, mixerPlaying := true }

/-- The `while not kb.is_pressed(...)` polling loop of `Notifier._alert`:
`polls` is the finite trace of Start/stop-key observations; the loop exits
at the first `true` observation and blocks forever (`none`) if none
arrives. -/
def alertWait (polls : List Bool) (s : AlertState) : Option AlertState :=
  match polls with
  | [] => none
  | b :: rest => if b then some s else alertWait rest s

/-- The exit of `Notifier._alert`: `self.mixer.stop()` then
`config.listener.enabled = True`.  Note that `config.enabled` is not
written here. -/
def alertFinish (s : AlertState) : AlertState :=
  { s with mixerPlaying := false, listenerEnabled := true }

/-- Embeds `Notifier._alert` end to end over an acknowledgement trace. -/
def alertRun (polls : List Bool) (s : AlertState) : Option AlertState :=
  (alertWait polls (alertStart s)).map alertFinish

/-- Raw constructor arguments of `Point.__init__(self, x, y, frequency=1,
skip='False', adjust='False')`; the coordinates are modelled after the
`float(x)` conversion. -/
structure PointArgs : Type where
  x : Rat
  y : Rat
  frequency : Int
  skip : String
  adjust : String
deriving DecidableEq, Repr

/-- The kwargs mapping captured by `super().__init__(locals())` for a
Point: the raw arguments minus `self` and `__class__`, in parameter
order. -/
def pointArgsKwargs (a : PointArgs) : List (String × PrimValue) :=
  [("x", PrimValue.pFloat a.x), ("y", PrimValue.pFloat a.y),
   ("frequency", PrimValue.pInt a.frequency), ("skip", PrimValue.pStr a.skip),
   ("adjust", PrimValue.pStr a.adjust)]

/-- Embeds `Point.__init__` (src/routine/components.py lines 67-76) run on
an existing object `p`, field assignment by field assignment: kwargs, x, y,
then the three validations in order; a raised validation error leaves the
later fields untouched (and `commands` is never cleared).  Returns the
object state at exit together with the raised error, if any. -/
def pointInitOn (p : Point) (a : PointArgs) : Point × Option String :=
  let p1 := { p with kwargs := pointArgsKwargs a, x := a.x, y := a.y }
  match validate_nonnegative_int a.frequency with
  | .error e => (p1, some e)
  | .ok f =>
      let p2 := { p1 with frequency := f.toNat }
      match validate_boolean a.skip with
      | .error e => (p2, some e)
      | .ok sk =>
          let p3 := { p2 with counter := if sk then 1 else 0 }
          match validate_boolean a.adjust with
          | .error e => (p3, some e)
          | .ok adj => ({ p3 with adjust := adj }, none)

/-- A freshly allocated Point object before `__init__` runs, as created by
`self.__class__(*args, **kwargs)`. -/
def pointFresh : Point :=
  { kwargs := [], x := 0, y := 0, frequency := 1, counter := 0,
    adjust := false, commands := [] }

/-- Embeds `Label.__init__` (src/routine/components.py lines 113-119) run
on an existing object: kwargs and the name are set, then a duplicate name
in the routine's label table raises `ValueError`. -/
def labelInitOn (labels : List String) (l : Label) (a : String) :
    Label × Option String :=
  let l1 := { l with kwargs := [("label", PrimValue.pStr a)], label := a }
  if a ∈ labels then (l1, some "ValueError")
  else ({ l1 with index := none }, none)

/-- A freshly allocated Label object before `__init__` runs. -/
def labelFresh : Label :=
  { kwargs := [], label := "", index := none }

/-- Modelled from the spec: `settings.SETTING_VALIDATORS` lives in the
missing `src/common/settings.py`; the spec describes it as a fixed registry
of known tunable settings, keys outside it being a construction error, with
per-key validators coercing the value.  The registry is modelled as the
list of known keys and the coercion as the identity on rationals. -/
def settingRegistryLookup (registry : List String) (key : String) : Bool :=
  registry.contains key

/-- Embeds `Setting.__init__` (src/routine/components.py lines 190-195) run
on an existing object: kwargs and the key are set, then an unknown key
raises `ValueError`, else the validated value is stored. -/
def settingInitOn (registry : List String) (s : Setting) (a : String × Rat) :
    Setting × Option String :=
  let s1 := { s with
    kwargs := [("target", PrimValue.pStr a.1), ("value", PrimValue.pFloat a.2)],
    key := a.1 }
  if settingRegistryLookup registry a.1 then ({ s1 with value := a.2 }, none)
  else (s1, some ("Setting " ++ a.1 ++ " does not exist"))

/-- A freshly allocated Setting object before `__init__` runs. -/
def settingFresh : Setting :=
  { kwargs := [], key := "", value := 0 }

/-- Embeds `Component.update` (src/routine/components.py lines 38-42):
`self.__class__(*args, **kwargs)` constructs a throwaway instance from a
fresh object to validate the arguments, and only if that raises nothing is
`self.__init__(*args, **kwargs)` run on the receiver. -/
def componentUpdate {St A : Type} (initOn : St → A → St × Option String)
    (fresh : St) (st : St) (a : A) : St × Option String :=
  match (initOn fresh a).2 with
  | some e => (st, some e)
  | none => initOn st a

/-- `Point.update`, instantiating `Component.update`. -/
def pointUpdate (p : Point) (a : PointArgs) : Point × Option String :=
  componentUpdate pointInitOn pointFresh p a

/-- `Label.update`, instantiating `Component.update` with the routine's
label table in scope. -/
def labelUpdate (labels : List String) (l : Label) (a : String) :
    Label × Option String :=
  componentUpdate (labelInitOn labels) labelFresh l a

/-- `Setting.update`, instantiating `Component.update` with the settings
registry in scope. -/
def settingUpdate (registry : List String) (s : Setting) (a : String × Rat) :
    Setting × Option String :=
  componentUpdate (settingInitOn registry) settingFresh s a

/-- The clamp at `SkillRotation.main`'s call site (src/routine/components.py
line 480): `max_sec=min(5.0, max(0.2, remaining))`. -/
def attackMaxSec (remaining : Rat) : Rat :=
  min 5 (max (1/5) remaining)

/-- Embeds the branch structure of `SkillRotation._main_attack_phase`
(src/routine/components.py lines 441-450): the `[lo, hi)` interval the hold
duration is drawn from by `utils.rand_float`, or `none` when the phase
returns without holding (`max_sec <= 0.05`). -/
def attackBounds (maxSec : Rat) : Option (Rat × Rat) :=
  if maxSec ≤ 1/20 then none
  else if 1 ≤ maxSec then some (1, min 3 maxSec)
  else if 1/5 < maxSec then some (1/5, maxSec)
  else some (1/20, maxSec)

/-- Whether a concrete duration `d` is a possible draw of the attack phase
at budget `maxSec`: `utils.rand_float(lo, hi)` returns a value in
`[lo, hi)`. -/
def inAttackDraw (maxSec d : Rat) : Bool :=
  match attackBounds maxSec with
  | none => false
  | some (lo, hi) => decide (lo ≤ d ∧ d < hi)

/-
Theorems settling the claims.
-/

/-- C1 (counterexample): at `counter = 0`, `frequency = 0` the increment of
`Point._increment_counter` / `Jump._increment_counter` raises
ZeroDivisionError (`(0 + 1) % 0` in Python), instead of wrapping to the
claimed value `(0 + 1) % max 0 1 = 0`: the code has no `max(..., 1)`
tie-break. -/
theorem C1_counterexample :
    incrementCounter 0 0 = none ∧
    incrementCounter 0 0 ≠ some (incrementCounterClaim 0 0) := by
  decide

/-- C1 (amended): for every `frequency ≥ 1` the increment succeeds, equals
the wrap modulo `frequency` (which coincides with the claimed modulo
`max (frequency, 1)`), and lands in `[0, max (frequency, 1))`; the
division-by-zero safety claimed for `frequency = 0` does not hold. -/
theorem C1_amended (c f : Nat) (h : 1 ≤ f) :
    incrementCounter c f = some ((c + 1) % f) ∧
    incrementCounterClaim c f = (c + 1) % f ∧
    ∀ r, incrementCounter c f = some r → r < max f 1 := by
  have hf : f ≠ 0 := Nat.one_le_iff_ne_zero.mp h
  refine ⟨?_, ?_, ?_⟩
  · simp [incrementCounter, pyMod, hf]
  · simp [incrementCounterClaim, Nat.max_eq_left h]
  · intro r hr
    simp [incrementCounter, pyMod, hf] at hr
    rw [Nat.max_eq_left h, ← hr]
    exact Nat.mod_lt _ (Nat.pos_of_ne_zero hf)

/-- C1 (witness): concrete instance of the amended theorem at
`counter = 1`, `frequency = 2`. -/
theorem C1_witness :
    incrementCounter 1 2 = some ((1 + 1) % 2) ∧
    incrementCounterClaim 1 2 = (1 + 1) % 2 :=
  ⟨(C1_amended 1 2 (by decide)).1, (C1_amended 1 2 (by decide)).2.1⟩

/-- An unresolved Jump with `frequency = 2` and `counter = 0`, executed at
cursor position 5. -/
def jumpC2 : Jump :=
  { kwargs := [("label", PrimValue.pStr "a"), ("frequency", PrimValue.pInt 2),
     ("skip", PrimValue.pStr "False")],
    label := "a", frequency := 2, counter := 0, link := none }

/-- The execution context for the C2 counterexample. -/
def ctxC2 : ExecCtx := { index := 5, skillRotationMode := false, effects := [] }

/-- C2 (counterexample): executing the unresolved Jump leaves its
`visit_counter` at 0, whereas the claim says each enabled visit increments
it (to `(0 + 1) % max 2 1 = 1`): the increment sits in the resolved-link
branch of `Jump.main`. -/
theorem C2_counterexample :
    (jumpMain jumpC2 ctxC2).map (fun r => r.1.counter) = some jumpC2.counter ∧
    jumpC2.counter ≠ incrementCounterClaim jumpC2.counter jumpC2.frequency := by
  decide

/-- C2 (amended): executing a Branch whose `link` is unresolved emits a
diagnostic and is otherwise a no-op: it never fails, never moves the
cursor, and leaves the Jump — its `visit_counter` included — completely
unchanged (the counter is not incremented). -/
theorem C2_amended (j : Jump) (ctx : ExecCtx) (h : j.link = none) :
    jumpMain j ctx =
      some (j, { ctx with effects := ctx.effects
        ++ [Effect.diagnostic ("Label " ++ j.label ++ " does not exist")] }) := by
  simp [jumpMain, h]

/-- C2 (witness): the amended theorem applied to the concrete unresolved
Jump. -/
theorem C2_witness :
    jumpMain jumpC2 ctxC2 =
      some (jumpC2, { ctxC2 with effects := ctxC2.effects
        ++ [Effect.diagnostic ("Label " ++ jumpC2.label ++ " does not exist")] }) :=
  C2_amended jumpC2 ctxC2 rfl

/-- The rune state just before the 9th cumulative failure. -/
def runeC3 : RuneState :=
  { attempts := 8, runeActive := true, cashShopRecovery := false,
    aborted := false }

/-- C3 (counterexample): a failed run taking the persistent `attempts`
counter to exactly 9 leaves `rune_active` set: the code clears it only
when `attempts > 9`, not when it reaches 9 as the claim states. -/
theorem C3_counterexample :
    (solveRune false runeC3).attempts = 9 ∧
    (solveRune false runeC3).runeActive = true := by
  decide

/-- C3 (amended): every fully failed run increments `attempts` by one;
the cash-shop recovery fires exactly on every 3rd cumulative failure;
`rune_active` is force-cleared exactly past 9 failures (that is, when
`attempts` reaches 10, not 9) and is otherwise untouched by a failure;
and the machine aborts exactly past 20 failures (when `attempts`
reaches 21, as claimed). -/
theorem C3_amended (s : RuneState) (solved : Bool) :
    (solved = false → (solveRune solved s).attempts = s.attempts + 1) ∧
    ((solveRune solved s).cashShopRecovery = true ↔
      (solveRune solved s).attempts % 3 = 0) ∧
    ((solveRune solved s).attempts > 9 → (solveRune solved s).runeActive = false) ∧
    ((solveRune solved s).attempts ≤ 9 → solved = false →
      (solveRune solved s).runeActive = s.runeActive) ∧
    ((solveRune solved s).aborted = true ↔ (solveRune solved s).attempts > 20) := by
  cases solved <;>
    simp only [solveRune] <;>
    refine ⟨?_, ?_, ?_, ?_, ?_⟩ <;>
    simp <;> omega

/-- C3 (witness): the amended theorem at the concrete pre-9th-failure
state. -/
theorem C3_witness :
    (solveRune false runeC3).attempts = runeC3.attempts + 1 ∧
    ((solveRune false runeC3).aborted = true ↔
      (solveRune false runeC3).attempts > 20) :=
  ⟨(C3_amended runeC3 false).1 rfl, (C3_amended runeC3 false).2.2.2.2⟩

/-- Membership characterization of `getAvailable`: a key is returned iff it
has an entry whose cooldown is nonpositive or fully elapsed. -/
theorem mem_getAvailable (t : CooldownTracker) (now : Rat) (k : String) :
    k ∈ getAvailable t now ↔
      ∃ cd, (k, cd) ∈ t.cooldowns ∧ (cd ≤ 0 ∨ now - t.last_used k ≥ cd) := by
  unfold getAvailable
  constructor
  · intro hmem
    rcases List.mem_map.mp hmem with ⟨⟨k', cd⟩, hmemf, hfst⟩
    rcases List.mem_filter.mp hmemf with ⟨hmeml, hpred⟩
    cases hfst
    exact ⟨cd, hmeml, of_decide_eq_true hpred⟩
  · rintro ⟨cd, hmeml, hpred⟩
    exact List.mem_map.mpr ⟨(k, cd),
      List.mem_filter.mpr ⟨hmeml, decide_eq_true hpred⟩, rfl⟩

/-- Two entries of an association list with pairwise distinct keys that
share a key carry the same value (a Python dict has unique keys). -/
theorem keyValueUnique {α β : Type} (l : List (α × β))
    (h : (l.map Prod.fst).Nodup) {a : α} {b b' : β}
    (h1 : (a, b) ∈ l) (h2 : (a, b') ∈ l) : b = b' := by
  induction l with
  | nil => cases h1
  | cons x xs ih =>
      have hmap : (x :: xs).map Prod.fst = x.1 :: xs.map Prod.fst := rfl
      rw [hmap] at h
      rcases List.nodup_cons.mp h with ⟨hx, hxs⟩
      rcases List.mem_cons.mp h1 with e1 | m1 <;>
        rcases List.mem_cons.mp h2 with e2 | m2
      · rw [← e1] at e2
        exact (congrArg Prod.snd e2).symm
      · have hxa : x.1 = a := by rw [← e1]
        rw [hxa] at hx
        exact absurd (List.mem_map.mpr ⟨(a, b'), m2, rfl⟩) hx
      · have hxa : x.1 = a := by rw [← e2]
        rw [hxa] at hx
        exact absurd (List.mem_map.mpr ⟨(a, b), m1, rfl⟩) hx
      · exact ih hxs m1 m2

/-- C4: for a tracker whose table has unique keys and a key `k` with
nonnegative cooldown `cd`: a zero cooldown makes `k` available at every
time; immediately after `record_used(k)` the key is unavailable unless its
cooldown is zero; and once at least `cd` seconds have elapsed since the
`record_used(k)`, the key is available again. -/
theorem C4_cooldown (t : CooldownTracker) (k : String) (cd now elapsed : Rat)
    (hnodup : (t.cooldowns.map Prod.fst).Nodup)
    (hk : (k, cd) ∈ t.cooldowns) (hcd : 0 ≤ cd) :
    (cd = 0 → k ∈ getAvailable t now) ∧
    (cd ≠ 0 → k ∉ getAvailable (recordUsed t k now) now) ∧
    (cd ≤ elapsed → k ∈ getAvailable (recordUsed t k now) (now + elapsed)) := by
  have hlast : (recordUsed t k now).last_used k = now := by simp [recordUsed]
  refine ⟨?_, ?_, ?_⟩
  · intro h0
    subst h0
    exact (mem_getAvailable t now k).mpr ⟨0, hk, Or.inl le_rfl⟩
  · intro hne hmem
    rcases (mem_getAvailable _ now k).mp hmem with ⟨cd', hk', hpred⟩
    have hsame : cd' = cd := keyValueUnique t.cooldowns hnodup hk' hk
    subst hsame
    have hpos : 0 < cd' := lt_of_le_of_ne hcd (Ne.symm hne)
    rw [hlast] at hpred
    rcases hpred with hle | hge
    · linarith
    · have : now - now = 0 := sub_self now
      linarith
  · intro hel
    refine (mem_getAvailable _ _ k).mpr ⟨cd, hk, Or.inr ?_⟩
    rw [hlast]
    linarith

/-- The tracker of the C4 witness: a zero-cooldown main attack and a
30-second skill. -/
def cooldownC4 : CooldownTracker :=
  cooldownInit [("atk", 0), ("fireball", 30)]

/-- C4 (witness): the three parts of C4 at the concrete tracker. -/
theorem C4_witness :
    "atk" ∈ getAvailable cooldownC4 1000 ∧
    "fireball" ∉ getAvailable (recordUsed cooldownC4 "fireball" 1000) 1000 ∧
    "fireball" ∈ getAvailable (recordUsed cooldownC4 "fireball" 1000) (1000 + 30) := by
  have hnodup : (cooldownC4.cooldowns.map Prod.fst).Nodup := by
    simp [cooldownC4, cooldownInit]
  have hatk : ("atk", (0 : Rat)) ∈ cooldownC4.cooldowns := by
    simp [cooldownC4, cooldownInit]
  have hfb : ("fireball", (30 : Rat)) ∈ cooldownC4.cooldowns := by
    simp [cooldownC4, cooldownInit]
  exact ⟨(C4_cooldown cooldownC4 "atk" 0 1000 30 hnodup hatk le_rfl).1 rfl,
    (C4_cooldown cooldownC4 "fireball" 30 1000 30 hnodup hfb
      (by norm_num)).2.1 (by norm_num),
    (C4_cooldown cooldownC4 "fireball" 30 1000 30 hnodup hfb
      (by norm_num)).2.2 le_rfl⟩

/-- C10: right after `CooldownTracker(cooldowns)` is constructed, every
`last_used` entry is 0.0, so at any clock reading at least every cooldown
value, `get_available` returns every key of the table in order: positive
cooldowns impose no initial waiting period. -/
theorem C10_init_available (cooldowns : List (String × Rat)) (now : Rat)
    (h : ∀ kv ∈ cooldowns, kv.2 ≤ now) :
    getAvailable (cooldownInit cooldowns) now = cooldowns.map Prod.fst := by
  unfold getAvailable
  have hf : ∀ kv ∈ (cooldownInit cooldowns).cooldowns,
      decide (kv.2 ≤ 0 ∨ now - (cooldownInit cooldowns).last_used kv.1 ≥ kv.2)
        = true := by
    intro kv hkv
    have hle : kv.2 ≤ now := h kv hkv
    have : now - (cooldownInit cooldowns).last_used kv.1 ≥ kv.2 := by
      simp [cooldownInit]
      linarith
    exact decide_eq_true (Or.inr this)
  rw [List.filter_eq_self.mpr hf]
  rfl

/-- The cooldown table of the C10 witness. -/
def initC10 : List (String × Rat) := [("atk", 0), ("fireball", 30)]

/-- C10 (witness): the freshly constructed tracker reports both keys
available at clock reading 1000. -/
theorem C10_witness :
    getAvailable (cooldownInit initC10) 1000 = initC10.map Prod.fst :=
  C10_init_available initC10 1000 (by
    intro kv hkv
    fin_cases hkv <;> norm_num)

/-- C5: with the global `enabled` flag false, executing any routine element
is a complete no-op (the element — visit counters included — and the
context are returned unchanged, and no side effect is emitted), and one
whole decision-loop iteration leaves the bot state — cursor included —
exactly as it was, so resuming continues from the paused state. -/
theorem C5_pause (e : Element) (ctx : ExecCtx) (s : BotState)
    (h : s.enabled = false) :
    elementExecute s.enabled e ctx = some (e, ctx) ∧ botStep s = some s := by
  constructor
  · rw [h]
    rfl
  · unfold botStep
    rw [h]
    simp

/-- A bound Label used in the C5 witness routine. -/
def labelC5 : Label :=
  { kwargs := [("label", PrimValue.pStr "top")], label := "top",
    index := some 0 }

/-- A resolved Jump used in the C5 witness routine. -/
def jumpC5 : Jump :=
  { kwargs := [("label", PrimValue.pStr "top"), ("frequency", PrimValue.pInt 1),
     ("skip", PrimValue.pStr "False")],
    label := "top", frequency := 1, counter := 0, link := some labelC5 }

/-- The paused bot state of the C5 witness. -/
def botC5 : BotState :=
  { enabled := false, elements := [Element.jump jumpC5], index := 0,
    skillRotationMode := false, effects := [] }

/-- C5 (witness): the pause theorem at the concrete paused state. -/
theorem C5_witness :
    elementExecute botC5.enabled (Element.jump jumpC5) ctxC2
      = some (Element.jump jumpC5, ctxC2) ∧
    botStep botC5 = some botC5 :=
  C5_pause (Element.jump jumpC5) ctxC2 botC5 rfl

/-- The `while not kb.is_pressed(...)` loop exits, with the state it was
given, exactly when the acknowledgement appears in the poll trace. -/
theorem alertWait_eq (polls : List Bool) (s : AlertState) :
    alertWait polls s = if true ∈ polls then some s else none := by
  induction polls with
  | nil => rfl
  | cons b rest ih =>
      cases b
      · simpa [alertWait] using ih
      · simp [alertWait]

/-- The initial state of the C6 counterexample: agent running, listener
active, no alert sound. -/
def alertS0 : AlertState :=
  { enabled := true, listenerEnabled := true, mixerPlaying := false }

/-- C6 (counterexample): with the acknowledgement observed at the first
poll, `_alert` returns with the global `enabled` flag still false — it is
never restored to true as the claim states (only `listener.enabled` is). -/
theorem C6_counterexample :
    (alertRun [true] alertS0).map AlertState.enabled = some false ∧
    (alertRun [true] alertS0).map AlertState.enabled ≠ some true := by
  decide

/-- C6 (amended): `_alert` sets the global `enabled` flag false and the
listener flag false and starts the looping alert on entry; it returns
exactly when the Start/stop acknowledgement is observed in its poll trace
(otherwise it blocks, i.e. yields no final state); and on return the alert
sound is stopped and the key listener is re-enabled, while the global
`enabled` flag remains false — `_alert` itself never restores it. -/
theorem C6_amended (polls : List Bool) (s : AlertState) :
    (alertStart s).enabled = false ∧
    (alertStart s).listenerEnabled = false ∧
    (alertStart s).mixerPlaying = true ∧
    ((alertRun polls s).isSome = true ↔ true ∈ polls) ∧
    ∀ s', alertRun polls s = some s' →
      s'.mixerPlaying = false ∧ s'.listenerEnabled = true ∧
        s'.enabled = false := by
  refine ⟨rfl, rfl, rfl, ?_, ?_⟩
  · unfold alertRun
    rw [alertWait_eq]
    by_cases hm : true ∈ polls <;> simp [hm]
  · intro s' hs'
    unfold alertRun at hs'
    rw [alertWait_eq] at hs'
    by_cases hm : true ∈ polls
    · rw [if_pos hm] at hs'
      cases hs'
      exact ⟨rfl, rfl, rfl⟩
    · rw [if_neg hm] at hs'
      cases hs'

/-- The final state `_alert` reaches in the C6 witness run. -/
def alertS1 : AlertState :=
  { enabled := false, listenerEnabled := true, mixerPlaying := false }

/-- C6 (witness): the amended theorem at the acknowledged-first-poll run
from the concrete initial state. -/
theorem C6_witness :
    alertRun [true] alertS0 = some alertS1 ∧
    (alertS1.mixerPlaying = false ∧ alertS1.listenerEnabled = true ∧
      alertS1.enabled = false) :=
  ⟨by decide, (C6_amended [true] alertS0).2.2.2.2 alertS1 (by decide)⟩

/-- The kwargs of a concrete `Point('1', '2')` as captured from `locals()`:
the raw string coordinates and the defaulted parameters. -/
def pointKwargsC7 : List (String × PrimValue) :=
  [("x", PrimValue.pStr "1"), ("y", PrimValue.pStr "2"),
   ("frequency", PrimValue.pInt 1), ("skip", PrimValue.pStr "False"),
   ("adjust", PrimValue.pStr "False")]

/-- C7 (counterexample): `encode` joins the symbol and the first key=value
pair with a comma too — a concrete Point renders as
`*, x=1, y=2, ...`, not `* x=1, y=2, ...` as the claim's format states. -/
theorem C7_counterexample :
    componentEncode "*" pointKwargsC7
      = "*, x=1, y=2, frequency=1, skip=False, adjust=False" ∧
    componentEncode "*" pointKwargsC7 ≠ specFormatEncode "*" pointKwargsC7 := by
  decide

/-- The kwargs loop of `encode` appends exactly the primitive-typed,
non-`id` pairs, rendered in order, to the accumulator. -/
theorem encode_foldl (kwargs : List (String × PrimValue)) (arr : List String) :
    kwargs.foldl encodeStep arr =
      arr ++ (kwargs.filter encodeKeep).map
        (fun kv => kv.1 ++ "=" ++ kv.2.render) := by
  induction kwargs generalizing arr with
  | nil => simp
  | cons kv rest ih =>
      by_cases hp : encodeKeep kv = true
      · simp [encodeStep, hp, List.filter_cons, ih]
      · simp [encodeStep, hp, List.filter_cons, ih]

/-- C7 (amended): `encode` renders an element as its symbol and its
primitive-typed constructor arguments in definition order, excluding the
`id` key and non-primitive fields, all joined by `, ` — the symbol is
followed by a comma, not a bare space; `Label.encode` is the same with a
newline prefixed. -/
theorem C7_amended (id : String) (kwargs : List (String × PrimValue)) :
    componentEncode id kwargs =
      String.intercalate ", " (id :: (kwargs.filter encodeKeep).map
        (fun kv => kv.1 ++ "=" ++ kv.2.render)) ∧
    labelEncode kwargs = "\n" ++ componentEncode "@" kwargs := by
  constructor
  · unfold componentEncode
    rw [encode_foldl]
    rfl
  · rfl

/-- Membership characterization of the attack-phase draw. -/
theorem inAttackDraw_iff (maxSec d : Rat) :
    inAttackDraw maxSec d = true ↔
      ∃ lo hi, attackBounds maxSec = some (lo, hi) ∧ lo ≤ d ∧ d < hi := by
  cases hb : attackBounds maxSec with
  | none => simp [inAttackDraw, hb]
  | some lohi =>
      obtain ⟨lo, hi⟩ := lohi
      simp only [inAttackDraw, hb]
      constructor
      · intro hd
        exact ⟨lo, hi, rfl, of_decide_eq_true hd⟩
      · rintro ⟨lo', hi', heq, hd⟩
        injection heq with heq2
        cases heq2
        exact decide_eq_true hd

/-- The upper bound of every attack-phase draw interval is at most the
`max_sec` budget passed in. -/
theorem attackBounds_hi_le (maxSec lo hi : Rat)
    (hb : attackBounds maxSec = some (lo, hi)) : hi ≤ maxSec := by
  unfold attackBounds at hb
  split_ifs at hb <;> simp at hb
  · rw [← hb.2]
    exact min_le_right 3 maxSec
  · rw [← hb.2]
  · rw [← hb.2]

/-- C8 (counterexample): with a remaining budget of 0.1 s, the clamp
`max_sec = min(5.0, max(0.2, remaining))` gives 0.2, so a hold of 0.15 s
is a possible draw of the attack phase even though it exceeds the
remaining budget — the phase can overshoot `end_time`, contradicting the
claimed `[0.05, remaining]` bound for budgets below 0.2 s. -/
theorem C8_counterexample :
    inAttackDraw (attackMaxSec (1/10)) (3/20) = true ∧
    ¬ ((3/20 : Rat) ≤ 1/10) := by
  constructor
  · norm_num [inAttackDraw, attackBounds, attackMaxSec]
  · norm_num

/-- C8 (amended): every possible hold duration of the main-attack phase is
strictly below `max(0.2, remaining)`: for remaining budgets of at least
0.2 s the hold never overshoots the budget, while for smaller budgets the
draw comes from `[0.05, 0.2)` — clamped below 0.2 s but possibly past
`end_time`. -/
theorem C8_amended (remaining d : Rat)
    (h : inAttackDraw (attackMaxSec remaining) d = true) :
    d < max (1/5) remaining ∧ ((1/5 : Rat) ≤ remaining → d < remaining) := by
  have hMax : attackMaxSec remaining ≤ max (1/5) remaining :=
    min_le_right _ _
  rcases (inAttackDraw_iff _ d).mp h with ⟨lo, hi, hb, hlo, hhi⟩
  have hle : hi ≤ attackMaxSec remaining := attackBounds_hi_le _ lo hi hb
  have hd : d < max (1/5) remaining :=
    lt_of_lt_of_le (lt_of_lt_of_le hhi hle) hMax
  exact ⟨hd, fun hr => by rwa [max_eq_right hr] at hd⟩

/-- C8 (witness): a concrete in-bounds draw — budget 2 s, hold 1.5 s —
stays below the remaining budget. -/
theorem C8_witness :
    (3/2 : Rat) < max (1/5) 2 ∧ (3/2 : Rat) < 2 := by
  have h : inAttackDraw (attackMaxSec 2) (3/2) = true := by
    norm_num [inAttackDraw, attackBounds, attackMaxSec]
  exact ⟨(C8_amended 2 (3/2) h).1, (C8_amended 2 (3/2) h).2 (by norm_num)⟩

/-- C9: `Component.update` validates by constructing a throwaway instance
first, so for every argument list whose construction raises — a negative
repeat period or malformed boolean for a Point, a duplicate name for a
Label, an unknown registry key for a Setting — the receiver is returned
with all kwargs and fields unchanged alongside the propagated error. -/
theorem C9_update_atomic :
    (∀ (p : Point) (a : PointArgs) (e : String),
      (pointInitOn pointFresh a).2 = some e → pointUpdate p a = (p, some e)) ∧
    (∀ (labels : List String) (l : Label) (a : String) (e : String),
      (labelInitOn labels labelFresh a).2 = some e →
        labelUpdate labels l a = (l, some e)) ∧
    (∀ (registry : List String) (s : Setting) (a : String × Rat) (e : String),
      (settingInitOn registry settingFresh a).2 = some e →
        settingUpdate registry s a = (s, some e)) := by
  refine ⟨?_, ?_, ?_⟩
  · intro p a e h
    unfold pointUpdate componentUpdate
    rw [h]
  · intro labels l a e h
    unfold labelUpdate componentUpdate
    rw [h]
  · intro registry s a e h
    unfold settingUpdate componentUpdate
    rw [h]

/-- An argument list whose construction raises: `frequency = -1` fails the
nonnegative-integer validation. -/
def pointArgsBad : PointArgs :=
  { x := 1, y := 2, frequency := -1, skip := "False", adjust := "False" }

/-- The existing Point the failed edit must leave untouched. -/
def pointC9 : Point :=
  { kwargs := [("x", PrimValue.pFloat 3), ("y", PrimValue.pFloat 4),
     ("frequency", PrimValue.pInt 2), ("skip", PrimValue.pStr "True"),
     ("adjust", PrimValue.pStr "True")],
    x := 3, y := 4, frequency := 2, counter := 1, adjust := true,
    commands := ["jump"] }

/-- C9 (witness): updating the concrete Point with the bad arguments
propagates the validation error and returns the Point unchanged. -/
theorem C9_witness :
    pointUpdate pointC9 pointArgsBad
      = (pointC9, some "not a valid nonnegative integer") :=
  C9_update_atomic.1 pointC9 pointArgsBad "not a valid nonnegative integer" rfl

end AutoMaple
